import Mathlib

/-!
# FireBot (ME507 final project): the shared-state coordination protocol

A shallow embedding of the five FreeRTOS tasks of the repository
(`task_rotation_base.cpp`, `Task_Thermal_Sensor.cpp`, `task_Extinguisher.cpp`,
`MicroSwitch1.cpp` and the task declared in `MicroSwitch2.h`).

* Every task is an endless `for (;;)` loop whose body ends in `vTaskDelayUntil`.
  One pass through a loop body is one *tick*; a tick is a function `State → State`
  and is taken as one atomic step.
* The three `Share<uint8_t>` objects, the two local `uint8_t` flags of
  `task_Extinguisher`, the ISR flag `intReceived` and the buffer `pixelInts` are
  fields of `State`.  All values written by the code are the literals 0, 1, 2, 3,
  so the `uint8_t` fields are natural numbers and no write can overflow.
* Calls that command an external collaborator (`Motor::drive`,
  `Adafruit_AMG88xx::clearInterrupt`) and every `Share::put` are recorded, in
  program order, in `State.trace` (oldest event first).  The most recent command
  of a motor is read back from the trace by `lastDrive`.
* Values obtained from the outside (`digitalRead`, the sensor's interrupt table
  read by `getInterrupt`, the firing of the interrupt service routine) are inputs
  of the tick that consumes them.
-/

namespace FireBot

/-! ## Data model -/

/-- The three shares defined in `main.cpp` and declared in `shares.h`. -/
inductive Share where
  | fire_detected
  | state_extinguish
  | restart_program
  deriving DecidableEq, Repr

/-- The two `Motor` objects: `motor1` turns the turntable (`task_rotation_base.cpp`),
`motor2` actuates the extinguisher (`task_Extinguisher.cpp`). -/
inductive MotorId where
  | motor1
  | motor2
  deriving DecidableEq, Repr

/-- Observable actions of the tasks, recorded in program order. -/
inductive Event where
  | put (sh : Share) (v : Nat)
  | drive (m : MotorId) (speed : Int)
  | clearInterrupt
  deriving DecidableEq, Repr

/-- The variables of the program that the task loops read or write. -/
structure State where
  /-- Share `fire_detected`. -/
  fire_detected : Nat
  /-- Share `state_extinguish`, the state variable of the extinguisher FSM. -/
  state_extinguish : Nat
  /-- Share `restart_program`. -/
  restart_program : Nat
  /-- Local `start_extinguish` of `task_Extinguisher`. -/
  start_extinguish : Nat
  /-- Local `start_unclamp` of `task_Extinguisher`. -/
  start_unclamp : Nat
  /-- Global `volatile bool intReceived`, set by `AMG88xx_ISR`. -/
  intReceived : Bool
  /-- Global `uint8_t pixelInts[8]`, filled by `amg.getInterrupt`. -/
  pixelInts : List Nat
  /-- Puts, motor commands and sensor clears issued so far, oldest first. -/
  trace : List Event
  deriving DecidableEq, Repr

/-- The method `Share::put` applied to one of the three shares. -/
def put (sh : Share) (v : Nat) (s : State) : State :=
  match sh with
  | Share.fire_detected =>
      { s with fire_detected := v, trace := s.trace ++ [Event.put Share.fire_detected v] }
  | Share.state_extinguish =>
      { s with state_extinguish := v, trace := s.trace ++ [Event.put Share.state_extinguish v] }
  | Share.restart_program =>
      { s with restart_program := v, trace := s.trace ++ [Event.put Share.restart_program v] }

/-- The method `Motor::drive(speed)` of the motor driver: the command is recorded. -/
def drive (m : MotorId) (speed : Int) (s : State) : State :=
  { s with trace := s.trace ++ [Event.drive m speed] }

/-- The call `amg.clearInterrupt()`: the command is recorded. -/
def clearInterrupt (s : State) : State :=
  { s with trace := s.trace ++ [Event.clearInterrupt] }

/-! ## The tasks -/

/-- Start-up action of `task_Rotation_Base` (the statements before its loop):
the three shares are put to zero and the turntable is started with `drive(250)`. -/
def task_Rotation_Base_init (s : State) : State :=
  drive MotorId.motor1 250
    (put Share.restart_program 0 (put Share.state_extinguish 0 (put Share.fire_detected 0 s)))

/-- One pass through the loop of `task_Rotation_Base`: two independent checks,
first the arming check, then the restart check. -/
def task_Rotation_Base (s : State) : State :=
  let s1 :=
    if s.fire_detected = 1 then
      if s.state_extinguish = 0 then
        put Share.state_extinguish 1 (drive MotorId.motor1 0 s)
      else s
    else s
  if s1.restart_program = 1 then
    put Share.restart_program 0 (drive MotorId.motor1 250 s1)
  else s1

/-- Start-up action of `task_Extinguisher`: both local flags are initialised to zero. -/
def task_Extinguisher_init (s : State) : State :=
  { s with start_extinguish := 0, start_unclamp := 0 }

/-- One pass through the loop of `task_Extinguisher`, the FSM on `state_extinguish`. -/
def task_Extinguisher (s : State) : State :=
  if s.state_extinguish = 1 then
    if s.start_extinguish = 0 then
      { drive MotorId.motor2 250 s with start_extinguish := 1 }
    else s
  else if s.state_extinguish = 2 then
    if s.start_unclamp = 0 then
      { drive MotorId.motor2 (-250) s with start_unclamp := 1 }
    else s
  else if s.state_extinguish = 3 then
    put Share.fire_detected 0
      (put Share.state_extinguish 0
        (put Share.restart_program 1
          { drive MotorId.motor2 0 s with start_extinguish := 0, start_unclamp := 0 }))
  else s

/-- One pass through the loop of `MicroSwitch1`.  `level` is the `int` returned by
`digitalRead (IN1)`; it is stored in the `uint8_t current_value`.  The assignment
`current_value = 1` inside the branch writes a local that is never read again. -/
def MicroSwitch1 (level : Nat) (s : State) : State :=
  if s.state_extinguish = 1 then
    let current_value := level % 256
    if current_value = 0 then
      put Share.state_extinguish 2 s
    else s
  else s

/-- Modelled from the spec: the body of task `MicroSwitch2` (only `MicroSwitch2.h`, with
the declaration, and the task creation in `main.cpp` are in the sources).  Spec 4.5:
"Switch 2: symmetric, active only while `extinguish_state == 2`, advances to
`extinguish_state = 3` on detecting its pressed level"; it writes only
`extinguish_state`.  The pressed level is digital zero, as for switch 1. -/
def MicroSwitch2 (level : Nat) (s : State) : State :=
  if s.state_extinguish = 2 then
    let current_value := level % 256
    if current_value = 0 then
      put Share.state_extinguish 3 s
    else s
  else s

/-- The interrupt service routine `AMG88xx_ISR`. -/
def AMG88xx_ISR (s : State) : State :=
  { s with intReceived := true }

/-- One pass through the loop of `task_Thermal_Sensor`.  `table` is the content of the
sensor's interrupt table that `amg.getInterrupt(pixelInts)` copies into `pixelInts`. -/
def task_Thermal_Sensor (table : List Nat) (s : State) : State :=
  if s.fire_detected = 1 then s
  else
    if s.intReceived = true then
      { clearInterrupt (put Share.fire_detected 1 { s with pixelInts := table }) with
        intReceived := false }
    else s

/-! ## The system as a transition system -/

/-- One atomic step of the system: a pass through the loop of one of the five tasks,
or the firing of the sensor interrupt. -/
inductive Tick where
  | thermal (table : List Nat)
  | rotation
  | extinguisher
  | switch1 (level : Nat)
  | switch2 (level : Nat)
  | isr
  deriving DecidableEq, Repr

/-- The effect of one step. -/
def step (s : State) (t : Tick) : State :=
  match t with
  | Tick.thermal table => task_Thermal_Sensor table s
  | Tick.rotation => task_Rotation_Base s
  | Tick.extinguisher => task_Extinguisher s
  | Tick.switch1 level => MicroSwitch1 level s
  | Tick.switch2 level => MicroSwitch2 level s
  | Tick.isr => AMG88xx_ISR s

/-- The effect of a sequence of steps, first element first. -/
def run (s : State) (ts : List Tick) : State :=
  ts.foldl step s

/-- The program's statically initialised globals before any task has run. -/
def powerOn : State :=
  { fire_detected := 0, state_extinguish := 0, restart_program := 0,
    start_extinguish := 0, start_unclamp := 0, intReceived := false,
    pixelInts := List.replicate 8 0, trace := [] }

/-- The state once the start-up actions of `task_Extinguisher` and
`task_Rotation_Base` have run. -/
def initState : State :=
  task_Rotation_Base_init (task_Extinguisher_init powerOn)

/-- States the system can be in after initialisation. -/
def Reachable (s : State) : Prop :=
  ∃ ts : List Tick, run initState ts = s

/-- The speed of a `drive` event addressed to motor `m`. -/
def driveSpeed (m : MotorId) : Event → Option Int
  | Event.drive m1 v => if m1 = m then some v else none
  | _ => none

/-- The commands issued to motor `m`, oldest first. -/
def driveLog (m : MotorId) (tr : List Event) : List Int :=
  tr.filterMap (driveSpeed m)

/-- The most recent command issued to motor `m`, if any. -/
def lastDrive (m : MotorId) (tr : List Event) : Option Int :=
  (driveLog m tr).getLast?

/-- The events a step adds to the trace. -/
def emitted (s : State) (t : Tick) : List Event :=
  (step s t).trace.drop s.trace.length

/-- One edge of the cycle 0 → 1 → 2 → 3 → 0. -/
def cycleEdge (a b : Nat) : Prop :=
  (a = 0 ∧ b = 1) ∨ (a = 1 ∧ b = 2) ∨ (a = 2 ∧ b = 3) ∨ (a = 3 ∧ b = 0)

/-- The values of `state_extinguish` before the first step and after each step. -/
def visited (s : State) : List Tick → List Nat
  | [] => [s.state_extinguish]
  | t :: ts => s.state_extinguish :: visited (step s t) ts

/-! ## Concrete schedules and states used in the evaluations below -/

/-- A sample content of the sensor's interrupt table (one pixel over the threshold). -/
def hotTable : List Nat := [0, 0, 0, 16, 0, 0, 0, 0]

/-- One scheduling round in priority order (`main.cpp`: MicroSwitch2 has priority 5,
MicroSwitch1 4, Extinguisher 3, Thermal Sensor 2, Rotation 1). -/
def round (level2 level1 : Nat) (table : List Nat) : List Tick :=
  [Tick.switch2 level2, Tick.switch1 level1, Tick.extinguisher, Tick.thermal table,
   Tick.rotation]

/-- A schedule in which the sensor interrupt fires a second time while the first fire is
being extinguished: detection and arming, compression, the round in which switch 1 is
pressed, the second interrupt, then the round in which switch 2 is pressed. -/
def secondFireSchedule : List Tick :=
  [Tick.isr] ++ round 1 1 hotTable ++ round 1 1 hotTable ++ round 1 0 hotTable ++
    [Tick.isr] ++ round 0 1 hotTable

/-- The tick sequence of one complete detection and suppression cycle. -/
def fullCycle (table : List Nat) : List Tick :=
  [Tick.isr, Tick.thermal table, Tick.rotation, Tick.extinguisher, Tick.switch1 0,
   Tick.extinguisher, Tick.switch2 0, Tick.extinguisher, Tick.rotation]

/-- An idle state in which the restart signal is still pending and the thermal latch is
set, as left by a state-3 reset when the interrupt fired during suppression. -/
def restartPending : State :=
  { initState with restart_program := 1, intReceived := true }

/-- The state after detection, arming and the first pass of the extinguisher task:
`state_extinguish = 1`, the extinguish motor running forward. -/
def compressing : State :=
  run initState [Tick.isr, Tick.thermal hotTable, Tick.rotation, Tick.extinguisher]

/-- A state with `state_extinguish = 3` and both one-shot flags set. -/
def inState3 : State :=
  { initState with fire_detected := 1, state_extinguish := 3, start_extinguish := 1,
                   start_unclamp := 1 }

/-- The state after detection, arming, compression and the pressing of switch 1:
`state_extinguish = 2`, the reverse command not yet issued. -/
def switch1Pressed : State :=
  run initState
    [Tick.isr, Tick.thermal hotTable, Tick.rotation, Tick.extinguisher, Tick.switch1 0]

/-- The state right after detection and arming, before the extinguisher task has run:
`state_extinguish = 1` and `start_extinguish = 0`. -/
def armed : State :=
  run initState [Tick.isr, Tick.thermal hotTable, Tick.rotation]

/-- A state in which `state_extinguish` holds the out-of-domain value 200 while a fire
is flagged and a restart is requested. -/
def outOfDomain : State :=
  { initState with fire_detected := 1, state_extinguish := 200, restart_program := 1 }

/-- The tick sequence of detection and arming. -/
def detectAndArm : List Tick :=
  [Tick.isr, Tick.thermal hotTable, Tick.rotation]

/-- The tick sequence up to and including the state-3 reset of the extinguisher task. -/
def untilReset : List Tick :=
  [Tick.isr, Tick.thermal hotTable, Tick.rotation, Tick.extinguisher, Tick.switch1 0,
   Tick.extinguisher, Tick.switch2 0, Tick.extinguisher]

/-- The state reached by `secondFireSchedule` just before its last thermal and rotation
passes: the state-3 reset has run, the restart signal is pending and the thermal latch
was set again by the second interrupt. -/
def resetWithLatch : State :=
  run initState
    ([Tick.isr] ++ round 1 1 hotTable ++ round 1 1 hotTable ++ round 1 0 hotTable ++
      [Tick.isr, Tick.switch2 0, Tick.switch1 1, Tick.extinguisher])

/-! ## Shared lemmas -/

theorem run_cons (s : State) (t : Tick) (ts : List Tick) :
    run s (t :: ts) = run (step s t) ts := rfl

/-- A property that is preserved by every step is preserved by every sequence of steps. -/
theorem run_invariant (P : State → Prop) (hstep : ∀ s t, P s → P (step s t)) :
    ∀ (ts : List Tick) (s : State), P s → P (run s ts) := by
  intro ts
  induction ts with
  | nil => intro s hs; exact hs
  | cons t ts ih => intro s hs; exact ih (step s t) (hstep s t hs)

/-- The most recent command after further events: the last command among the new events,
or else the one before them. -/
theorem lastDrive_append (m : MotorId) (tr es : List Event) :
    lastDrive m (tr ++ es) = (lastDrive m es).or (lastDrive m tr) := by
  simp [lastDrive, driveLog]

/-- Every step only appends to the trace. -/
theorem step_trace (s : State) (t : Tick) : (step s t).trace = s.trace ++ emitted s t := by
  unfold emitted
  cases t <;>
    simp only [step, task_Thermal_Sensor, task_Rotation_Base, task_Extinguisher, MicroSwitch1,
      MicroSwitch2, AMG88xx_ISR, put, drive, clearInterrupt] <;>
    (try split_ifs) <;> simp

/-- Every step leaves `state_extinguish` alone or moves it along one edge of the cycle. -/
theorem step_state_extinguish (s : State) (t : Tick) :
    (step s t).state_extinguish = s.state_extinguish ∨
      cycleEdge s.state_extinguish (step s t).state_extinguish := by
  cases t <;>
    simp only [step, task_Thermal_Sensor, task_Rotation_Base, task_Extinguisher, MicroSwitch1,
      MicroSwitch2, AMG88xx_ISR, put, drive, clearInterrupt, cycleEdge] <;>
    (try split_ifs) <;> simp_all

theorem step_state_extinguish_le (s : State) (t : Tick) (h : s.state_extinguish ≤ 3) :
    (step s t).state_extinguish ≤ 3 := by
  rcases step_state_extinguish s t with h1 | h1
  · omega
  · unfold cycleEdge at h1; omega

theorem run_state_extinguish_le (ts : List Tick) : (run initState ts).state_extinguish ≤ 3 :=
  run_invariant (fun s => s.state_extinguish ≤ 3) step_state_extinguish_le ts initState
    (by decide)

/-- Outside state 1 a pass of `MicroSwitch1` does nothing, whatever the pin level. -/
theorem MicroSwitch1_inactive (level : Nat) (s : State) (h : s.state_extinguish ≠ 1) :
    MicroSwitch1 level s = s := by
  simp [MicroSwitch1, h]

/-- In state 1 with the pin at digital zero, `MicroSwitch1` performs the single put. -/
theorem MicroSwitch1_pressed (s : State) (h : s.state_extinguish = 1) :
    MicroSwitch1 0 s = put Share.state_extinguish 2 s := by
  simp [MicroSwitch1, h]

/-! ## C1: rotation and extinguishing -/

/-- C1 (violated by the code): the claim says that in every reachable state with
`state_extinguish` in {1, 2, 3} the most recent turntable command is `drive(0)`.
Evaluating the tasks on `secondFireSchedule` gives a reachable state with
`fire_detected = 1`, `state_extinguish = 1` and most recent turntable command
`drive(250)`: the rotation pass that arms the FSM also finds `restart_program = 1`
and restarts the turntable.  Hence the invariant does not hold. -/
theorem turntable_driven_while_extinguisher_armed :
    (run initState secondFireSchedule).fire_detected = 1 ∧
    (run initState secondFireSchedule).state_extinguish = 1 ∧
    lastDrive MotorId.motor1 (run initState secondFireSchedule).trace = some 250 ∧
    ¬ (∀ s : State, Reachable s →
        (s.state_extinguish = 1 ∨ s.state_extinguish = 2 ∨ s.state_extinguish = 3) →
        lastDrive MotorId.motor1 s.trace = some 0) := by
  refine ⟨by decide, by decide, by decide, fun h => ?_⟩
  have h1 := h (run initState secondFireSchedule) ⟨secondFireSchedule, rfl⟩ (Or.inl (by decide))
  revert h1
  decide

/-! ## C2: the cycle of `state_extinguish` -/

/-- C2: after every sequence of steps from the initialised state `state_extinguish` is
0, 1, 2 or 3, and every further step leaves it unchanged or moves it along exactly one
of the edges 0→1, 1→2, 2→3, 3→0. -/
theorem state_extinguish_cycle (ts : List Tick) :
    ((run initState ts).state_extinguish = 0 ∨ (run initState ts).state_extinguish = 1 ∨
      (run initState ts).state_extinguish = 2 ∨ (run initState ts).state_extinguish = 3) ∧
    ∀ t : Tick,
      (step (run initState ts) t).state_extinguish = (run initState ts).state_extinguish ∨
        cycleEdge (run initState ts).state_extinguish
          (step (run initState ts) t).state_extinguish := by
  refine ⟨?_, fun t => step_state_extinguish _ t⟩
  have := run_state_extinguish_le ts
  omega

/-! ## C3: transitions of `fire_detected` -/

/-- C3: for every state and every step, `fire_detected` goes from 0 to 1 only in a pass
of the thermal task with the latch set; it goes from 1 to 0 only in a pass of the
extinguisher task that observes `state_extinguish = 3`; and a step that changes
`fire_detected` at all is one of these two (the thermal pass with the latch set and
`fire_detected ≠ 1`, writing 1, or the state-3 reset, writing 0). -/
theorem fire_detected_transitions (s : State) (t : Tick) :
    (s.fire_detected = 0 → (step s t).fire_detected = 1 →
        (∃ table, t = Tick.thermal table) ∧ s.intReceived = true) ∧
    (s.fire_detected = 1 → (step s t).fire_detected = 0 →
        t = Tick.extinguisher ∧ s.state_extinguish = 3) ∧
    ((step s t).fire_detected ≠ s.fire_detected →
        ((∃ table, t = Tick.thermal table) ∧ s.intReceived = true ∧ s.fire_detected ≠ 1 ∧
            (step s t).fire_detected = 1) ∨
        (t = Tick.extinguisher ∧ s.state_extinguish = 3 ∧ (step s t).fire_detected = 0)) := by
  cases t <;>
    simp only [step, task_Thermal_Sensor, task_Rotation_Base, task_Extinguisher, MicroSwitch1,
      MicroSwitch2, AMG88xx_ISR, put, drive, clearInterrupt] <;>
    (try split_ifs) <;> simp_all

/-! ## C4: scenario C, reset and resume -/

/-- C4: in every state with `state_extinguish = 3`, one pass of the extinguisher task
issues `drive(0)` to the extinguish motor, clears both one-shot flags, puts
`restart_program = 1`, `state_extinguish = 0`, `fire_detected = 0` (and does nothing
else); the following pass of the rotation task issues `drive(250)` to the turntable
motor and puts `restart_program = 0` (and does nothing else). -/
theorem scenario_C_reset_then_resume (s : State) (h : s.state_extinguish = 3) :
    task_Extinguisher s =
      { s with fire_detected := 0, state_extinguish := 0, restart_program := 1,
               start_extinguish := 0, start_unclamp := 0,
               trace := s.trace ++ [Event.drive MotorId.motor2 0,
                 Event.put Share.restart_program 1, Event.put Share.state_extinguish 0,
                 Event.put Share.fire_detected 0] } ∧
    lastDrive MotorId.motor2 (task_Extinguisher s).trace = some 0 ∧
    task_Rotation_Base (task_Extinguisher s) =
      { task_Extinguisher s with
        restart_program := 0,
        trace := (task_Extinguisher s).trace ++
          [Event.drive MotorId.motor1 250, Event.put Share.restart_program 0] } ∧
    lastDrive MotorId.motor1 (task_Rotation_Base (task_Extinguisher s)).trace = some 250 ∧
    (task_Rotation_Base (task_Extinguisher s)).restart_program = 0 := by
  have h1 : task_Extinguisher s =
      { s with fire_detected := 0, state_extinguish := 0, restart_program := 1,
               start_extinguish := 0, start_unclamp := 0,
               trace := s.trace ++ [Event.drive MotorId.motor2 0,
                 Event.put Share.restart_program 1, Event.put Share.state_extinguish 0,
                 Event.put Share.fire_detected 0] } := by
    simp [task_Extinguisher, h, put, drive]
  rw [h1]
  simp [task_Rotation_Base, put, drive, lastDrive_append, lastDrive, driveLog, driveSpeed]

/-- C4, evaluated at `inState3`. -/
theorem scenario_C_reset_then_resume_witness :
    inState3.state_extinguish = 3 ∧
    lastDrive MotorId.motor2 (task_Extinguisher inState3).trace = some 0 ∧
    lastDrive MotorId.motor1 (task_Rotation_Base (task_Extinguisher inState3)).trace
      = some 250 ∧
    (task_Rotation_Base (task_Extinguisher inState3)).restart_program = 0 :=
  ⟨by decide, (scenario_C_reset_then_resume inState3 (by decide)).2.1,
    (scenario_C_reset_then_resume inState3 (by decide)).2.2.2⟩

/-! ## C7: the full cycle -/

/-- C7: from the initialised state the sequence interrupt, thermal, rotation,
extinguisher, switch 1 (pressed), extinguisher, switch 2 (pressed), extinguisher,
rotation takes `state_extinguish` through 0, 1, 2, 3, 0 and ends with the three shares
0, both one-shot flags 0, the latch cleared and the turntable last commanded with
`drive(250)`; the turntable received 250, 0, 250 and the extinguish motor 250, -250, 0. -/
theorem full_cycle (table : List Nat) :
    visited initState (fullCycle table) = [0, 0, 0, 1, 1, 2, 2, 3, 0, 0] ∧
    (run initState (fullCycle table)).fire_detected = 0 ∧
    (run initState (fullCycle table)).state_extinguish = 0 ∧
    (run initState (fullCycle table)).restart_program = 0 ∧
    (run initState (fullCycle table)).start_extinguish = 0 ∧
    (run initState (fullCycle table)).start_unclamp = 0 ∧
    (run initState (fullCycle table)).intReceived = false ∧
    lastDrive MotorId.motor1 (run initState (fullCycle table)).trace = some 250 ∧
    driveLog MotorId.motor1 (run initState (fullCycle table)).trace = [250, 0, 250] ∧
    driveLog MotorId.motor2 (run initState (fullCycle table)).trace = [250, -250, 0] := by
  simp [visited, fullCycle, run, step, initState, powerOn, task_Rotation_Base_init,
    task_Extinguisher_init, task_Thermal_Sensor, task_Rotation_Base, task_Extinguisher,
    MicroSwitch1, MicroSwitch2, AMG88xx_ISR, put, drive, clearInterrupt, lastDrive, driveLog,
    driveSpeed]

/-! ## C8: idempotence of switch 1 -/

/-- C8: in every state with `state_extinguish = 1`, for every `n ≥ 1`, `n` consecutive
passes of `MicroSwitch1` that read digital zero give the same state as one such pass;
that pass changes only `state_extinguish`, to 2, with a single put; and after these
`n` passes a further pass records no event and changes nothing. -/
theorem MicroSwitch1_idempotent (s : State) (hes : s.state_extinguish = 1) (n : Nat)
    (hn : 1 ≤ n) :
    run s (List.replicate n (Tick.switch1 0)) = MicroSwitch1 0 s ∧
    MicroSwitch1 0 s =
      { s with state_extinguish := 2,
               trace := s.trace ++ [Event.put Share.state_extinguish 2] } ∧
    emitted s (Tick.switch1 0) = [Event.put Share.state_extinguish 2] ∧
    emitted (run s (List.replicate n (Tick.switch1 0))) (Tick.switch1 0) = [] ∧
    step (run s (List.replicate n (Tick.switch1 0))) (Tick.switch1 0) =
      run s (List.replicate n (Tick.switch1 0)) := by
  have h1 : MicroSwitch1 0 s = put Share.state_extinguish 2 s := MicroSwitch1_pressed s hes
  have h5 : step (MicroSwitch1 0 s) (Tick.switch1 0) = MicroSwitch1 0 s :=
    MicroSwitch1_inactive 0 _ (by simp [h1, put])
  have h2 : ∀ k : Nat, run (MicroSwitch1 0 s) (List.replicate k (Tick.switch1 0)) =
      MicroSwitch1 0 s := by
    intro k
    induction k with
    | zero => rfl
    | succ k ih => rw [List.replicate_succ, run_cons, h5, ih]
  obtain ⟨k, rfl⟩ : ∃ k, n = k + 1 := ⟨n - 1, by omega⟩
  have h4 : run s (List.replicate (k + 1) (Tick.switch1 0)) = MicroSwitch1 0 s := by
    rw [List.replicate_succ, run_cons]
    exact h2 k
  refine ⟨h4, by simp [h1, put], by simp [emitted, step, h1, put], ?_, ?_⟩
  · rw [h4]; unfold emitted; rw [h5]; simp
  · rw [h4]; exact h5

/-- C8, evaluated at `compressing` with three passes. -/
theorem MicroSwitch1_idempotent_witness :
    (compressing.state_extinguish = 1 ∧ 1 ≤ 3) ∧
    run compressing (List.replicate 3 (Tick.switch1 0)) = MicroSwitch1 0 compressing ∧
    emitted (run compressing (List.replicate 3 (Tick.switch1 0))) (Tick.switch1 0) = [] :=
  ⟨by decide, (MicroSwitch1_idempotent compressing (by decide) 3 (by decide)).1,
    (MicroSwitch1_idempotent compressing (by decide) 3 (by decide)).2.2.2.1⟩

/-! ## C9: one pass of the thermal task -/

/-- C9: for every state, a pass of the thermal task changes nothing when
`fire_detected = 1`; when `fire_detected ≠ 1` and the latch is set it puts
`fire_detected = 1`, stores the interrupt table, calls `clearInterrupt` and clears the
latch; when `fire_detected ≠ 1` and the latch is not set it changes nothing.  In all
cases `state_extinguish`, `restart_program` and the command logs of both motors are
unchanged. -/
theorem task_Thermal_Sensor_tick (s : State) (table : List Nat) :
    (s.fire_detected = 1 → task_Thermal_Sensor table s = s) ∧
    (s.fire_detected ≠ 1 → s.intReceived = true →
      task_Thermal_Sensor table s =
        { s with fire_detected := 1, intReceived := false, pixelInts := table,
                 trace := s.trace ++ [Event.put Share.fire_detected 1, Event.clearInterrupt] }) ∧
    (s.fire_detected ≠ 1 → s.intReceived = false → task_Thermal_Sensor table s = s) ∧
    (task_Thermal_Sensor table s).state_extinguish = s.state_extinguish ∧
    (task_Thermal_Sensor table s).restart_program = s.restart_program ∧
    (∀ m : MotorId,
      driveLog m (task_Thermal_Sensor table s).trace = driveLog m s.trace) := by
  refine ⟨?_, ?_, ?_, ?_, ?_, ?_⟩
  · intro h; simp [task_Thermal_Sensor, h]
  · intro h1 h2; simp [task_Thermal_Sensor, h1, h2, put, clearInterrupt]
  · intro h1 h2; simp [task_Thermal_Sensor, h1, h2]
  · unfold task_Thermal_Sensor; split_ifs <;> simp [put, clearInterrupt]
  · unfold task_Thermal_Sensor; split_ifs <;> simp [put, clearInterrupt]
  · intro m; unfold task_Thermal_Sensor
    split_ifs <;> simp [put, clearInterrupt, driveLog, driveSpeed]

/-! ## C10: single-writer discipline -/

/-- C10: for every state and every step: `state_extinguish` goes from 0 to 1, or 1 is
put to it, only in a pass of the rotation task; it becomes 0 from a nonzero value, or 0
is put to it, only in a pass of the extinguisher task; `restart_program` becomes 1, or
1 is put to it, only in a pass of the extinguisher task; and it becomes 0 from a nonzero
value, or 0 is put to it, only in a pass of the rotation task. -/
theorem single_writer_discipline (s : State) (t : Tick) :
    (s.state_extinguish = 0 → (step s t).state_extinguish = 1 → t = Tick.rotation) ∧
    (Event.put Share.state_extinguish 1 ∈ emitted s t → t = Tick.rotation) ∧
    (s.state_extinguish ≠ 0 → (step s t).state_extinguish = 0 → t = Tick.extinguisher) ∧
    (Event.put Share.state_extinguish 0 ∈ emitted s t → t = Tick.extinguisher) ∧
    (s.restart_program ≠ 1 → (step s t).restart_program = 1 → t = Tick.extinguisher) ∧
    (Event.put Share.restart_program 1 ∈ emitted s t → t = Tick.extinguisher) ∧
    (s.restart_program ≠ 0 → (step s t).restart_program = 0 → t = Tick.rotation) ∧
    (Event.put Share.restart_program 0 ∈ emitted s t → t = Tick.rotation) := by
  cases t <;>
    simp only [emitted, step, task_Thermal_Sensor, task_Rotation_Base, task_Extinguisher,
      MicroSwitch1, MicroSwitch2, AMG88xx_ISR, put, drive, clearInterrupt] <;>
    (try split_ifs) <;> simp_all

/-! ## Further shared lemmas -/

/-- The two local flags of `task_Extinguisher` are written by no other step. -/
theorem step_flags (s : State) (t : Tick) (h : t ≠ Tick.extinguisher) :
    (step s t).start_extinguish = s.start_extinguish ∧
      (step s t).start_unclamp = s.start_unclamp := by
  cases t <;>
    simp only [step, task_Thermal_Sensor, task_Rotation_Base, MicroSwitch1,
      MicroSwitch2, AMG88xx_ISR, put, drive, clearInterrupt] <;>
    (try split_ifs) <;> simp_all

/-- A sequence of steps without a pass of the extinguisher task keeps both flags. -/
theorem run_flags (us : List Tick) :
    ∀ s : State, Tick.extinguisher ∉ us →
      (run s us).start_extinguish = s.start_extinguish ∧
        (run s us).start_unclamp = s.start_unclamp := by
  induction us with
  | nil => intro s _; exact ⟨rfl, rfl⟩
  | cons t us ih =>
    intro s h
    have ht : t ≠ Tick.extinguisher := fun e => h (by simp [e])
    have hus : Tick.extinguisher ∉ us := fun e => h (by simp [e])
    rw [run_cons]
    have h1 := ih (step s t) hus
    have h2 := step_flags s t ht
    exact ⟨h1.1.trans h2.1, h1.2.trans h2.2⟩

/-- Every step preserves: while `state_extinguish = 0` both one-shot flags are 0. -/
theorem step_idle_flags (s : State) (t : Tick)
    (h : s.state_extinguish = 0 → s.start_extinguish = 0 ∧ s.start_unclamp = 0) :
    (step s t).state_extinguish = 0 →
      (step s t).start_extinguish = 0 ∧ (step s t).start_unclamp = 0 := by
  cases t <;>
    simp only [step, task_Thermal_Sensor, task_Rotation_Base, task_Extinguisher, MicroSwitch1,
      MicroSwitch2, AMG88xx_ISR, put, drive, clearInterrupt] <;>
    (try split_ifs) <;> simp_all

theorem run_idle_flags (ts : List Tick) :
    (run initState ts).state_extinguish = 0 →
      (run initState ts).start_extinguish = 0 ∧ (run initState ts).start_unclamp = 0 :=
  run_invariant
    (fun s => s.state_extinguish = 0 → s.start_extinguish = 0 ∧ s.start_unclamp = 0)
    step_idle_flags ts initState (by decide)

/-- A pass of the extinguisher task that finds the one-shot flag of the current state
already set, or `state_extinguish` outside {1, 2, 3}, does nothing. -/
theorem task_Extinguisher_quiet (s : State)
    (h : (s.state_extinguish = 1 ∧ s.start_extinguish ≠ 0) ∨
         (s.state_extinguish = 2 ∧ s.start_unclamp ≠ 0) ∨
         (s.state_extinguish ≠ 1 ∧ s.state_extinguish ≠ 2 ∧ s.state_extinguish ≠ 3)) :
    task_Extinguisher s = s := by
  rcases h with ⟨h1, h2⟩ | ⟨h1, h2⟩ | ⟨h1, h2, h3⟩ <;> simp [task_Extinguisher, *]

/-- Repeating a step that does nothing does nothing. -/
theorem run_replicate_fixed (s : State) (t : Tick) (h : step s t = s) (n : Nat) :
    run s (List.replicate n t) = s := by
  induction n with
  | zero => rfl
  | succ n ih => rw [List.replicate_succ, run_cons, h, ih]

/-! ## C11: the restart signal is consumed in one rotation pass -/

/-- C11: in every state with `restart_program` 0 or 1, after one pass of the rotation
task `restart_program = 0`, and the pass issues `drive(250)` to the turntable motor if
and only if `restart_program` was 1 before the pass. -/
theorem restart_consumed_in_one_rotation_tick (s : State)
    (h : s.restart_program = 0 ∨ s.restart_program = 1) :
    (task_Rotation_Base s).restart_program = 0 ∧
    (Event.drive MotorId.motor1 250 ∈ emitted s Tick.rotation ↔ s.restart_program = 1) := by
  simp only [emitted, step, task_Rotation_Base, put, drive]
  rcases h with h | h <;> split_ifs <;> simp_all

/-- C11, evaluated at `restartPending` (where `restart_program = 1`). -/
theorem restart_consumed_in_one_rotation_tick_witness :
    (restartPending.restart_program = 0 ∨ restartPending.restart_program = 1) ∧
    (task_Rotation_Base restartPending).restart_program = 0 ∧
    (Event.drive MotorId.motor1 250 ∈ emitted restartPending Tick.rotation ↔
      restartPending.restart_program = 1) :=
  ⟨by decide, restart_consumed_in_one_rotation_tick restartPending (by decide)⟩

/-! ## C12: start-up of the rotation task -/

/-- C12: whatever the three shares held before, the start-up action of the rotation task
leaves `fire_detected = 0`, `state_extinguish = 0`, `restart_program = 0`; it performs
the three puts and then issues `drive(250)` to the turntable motor, and this is the
command that a later rotation pass with `restart_program = 1` ends with. -/
theorem task_Rotation_Base_init_resets_and_starts (s : State) :
    (task_Rotation_Base_init s).fire_detected = 0 ∧
    (task_Rotation_Base_init s).state_extinguish = 0 ∧
    (task_Rotation_Base_init s).restart_program = 0 ∧
    (task_Rotation_Base_init s).trace =
      s.trace ++ [Event.put Share.fire_detected 0, Event.put Share.state_extinguish 0,
        Event.put Share.restart_program 0, Event.drive MotorId.motor1 250] ∧
    lastDrive MotorId.motor1 (task_Rotation_Base_init s).trace = some 250 ∧
    (∀ r : State, r.restart_program = 1 →
      lastDrive MotorId.motor1 (task_Rotation_Base r).trace =
        lastDrive MotorId.motor1 (task_Rotation_Base_init s).trace) := by
  refine ⟨by simp [task_Rotation_Base_init, put, drive],
    by simp [task_Rotation_Base_init, put, drive],
    by simp [task_Rotation_Base_init, put, drive],
    by simp [task_Rotation_Base_init, put, drive],
    by simp [task_Rotation_Base_init, put, drive, lastDrive, driveLog, driveSpeed], ?_⟩
  intro r hr
  simp only [task_Rotation_Base, task_Rotation_Base_init, put, drive]
  split_ifs <;> simp_all [lastDrive, driveLog, driveSpeed]

/-! ## C13: switch 1 is a guarded observer -/

/-- C13: for every state and every pin level, a pass of `MicroSwitch1` leaves
`fire_detected`, `restart_program`, both one-shot flags and the command logs of both
motors unchanged; it changes `state_extinguish` only when `state_extinguish = 1` and the
value read from the pin is digital zero, and then it puts 2; with `state_extinguish = 1`
and another pin value it changes nothing; and when `state_extinguish ≠ 1` it changes
nothing for every pin level. -/
theorem MicroSwitch1_guarded_observer (s : State) (level : Nat) :
    (MicroSwitch1 level s).fire_detected = s.fire_detected ∧
    (MicroSwitch1 level s).restart_program = s.restart_program ∧
    (MicroSwitch1 level s).start_extinguish = s.start_extinguish ∧
    (MicroSwitch1 level s).start_unclamp = s.start_unclamp ∧
    (∀ m : MotorId, driveLog m (MicroSwitch1 level s).trace = driveLog m s.trace) ∧
    ((MicroSwitch1 level s).state_extinguish ≠ s.state_extinguish →
      s.state_extinguish = 1 ∧ level % 256 = 0) ∧
    (s.state_extinguish = 1 → level % 256 = 0 →
      MicroSwitch1 level s = put Share.state_extinguish 2 s ∧
      (MicroSwitch1 level s).state_extinguish = 2) ∧
    (s.state_extinguish = 1 → level % 256 ≠ 0 → MicroSwitch1 level s = s) ∧
    (s.state_extinguish ≠ 1 → ∀ anyLevel : Nat, MicroSwitch1 anyLevel s = s) := by
  refine ⟨?_, ?_, ?_, ?_, ?_, ?_, ?_, ?_, ?_⟩ <;>
    simp only [MicroSwitch1, put] <;> (try split_ifs) <;>
    simp_all [driveLog, driveSpeed]

/-! ## C14: the one-shot guard of state 1 -/

/-- C14: in every state with `state_extinguish = 1` and `start_extinguish = 0`, one pass
of the extinguisher task issues exactly one command, `drive(250)` to the extinguish
motor, and sets `start_extinguish = 1` (nothing else changes); after any number of
further consecutive passes `state_extinguish` is still 1, the state is the same, and a
further pass records no event and changes nothing. -/
theorem state1_one_shot (s : State) (hes : s.state_extinguish = 1)
    (hflag : s.start_extinguish = 0) :
    task_Extinguisher s =
      { s with start_extinguish := 1,
               trace := s.trace ++ [Event.drive MotorId.motor2 250] } ∧
    emitted s Tick.extinguisher = [Event.drive MotorId.motor2 250] ∧
    (∀ n : Nat,
      run (task_Extinguisher s) (List.replicate n Tick.extinguisher) = task_Extinguisher s ∧
      (run (task_Extinguisher s) (List.replicate n Tick.extinguisher)).state_extinguish = 1 ∧
      emitted (run (task_Extinguisher s) (List.replicate n Tick.extinguisher))
        Tick.extinguisher = [] ∧
      step (run (task_Extinguisher s) (List.replicate n Tick.extinguisher)) Tick.extinguisher
        = run (task_Extinguisher s) (List.replicate n Tick.extinguisher)) := by
  have h1 : task_Extinguisher s =
      { s with start_extinguish := 1,
               trace := s.trace ++ [Event.drive MotorId.motor2 250] } := by
    simp [task_Extinguisher, hes, hflag, drive]
  have h2 : step (task_Extinguisher s) Tick.extinguisher = task_Extinguisher s :=
    task_Extinguisher_quiet _ (Or.inl (by simp [h1, hes]))
  refine ⟨h1, by simp [emitted, step, h1], fun n => ?_⟩
  rw [run_replicate_fixed _ _ h2 n]
  refine ⟨rfl, by simp [h1, hes], ?_, h2⟩
  unfold emitted; rw [h2]; simp

/-- C14, evaluated at `armed` with two further passes. -/
theorem state1_one_shot_witness :
    (armed.state_extinguish = 1 ∧ armed.start_extinguish = 0) ∧
    emitted armed Tick.extinguisher = [Event.drive MotorId.motor2 250] ∧
    emitted (run (task_Extinguisher armed) (List.replicate 2 Tick.extinguisher))
      Tick.extinguisher = [] :=
  ⟨by decide, (state1_one_shot armed (by decide) (by decide)).2.1,
    ((state1_one_shot armed (by decide) (by decide)).2.2 2).2.2.1⟩

/-! ## C15: the one-shot guard of state 2 -/

/-- C15: in every state with `state_extinguish = 2` and `start_unclamp = 0`, one pass of
the extinguisher task issues exactly one command, `drive(-250)` to the extinguish motor
(the negated speed of the command a pass in state 1 issues), and sets
`start_unclamp = 1`; the three shares keep their values and no put is recorded; after
any number of further consecutive passes `state_extinguish` is still 2, the state is
the same, and a further pass records no event and changes nothing. -/
theorem state2_one_shot (s : State) (hes : s.state_extinguish = 2)
    (hflag : s.start_unclamp = 0) :
    task_Extinguisher s =
      { s with start_unclamp := 1,
               trace := s.trace ++ [Event.drive MotorId.motor2 (-250)] } ∧
    emitted s Tick.extinguisher = [Event.drive MotorId.motor2 (-250)] ∧
    (∀ (r : State) (v : Int), r.state_extinguish = 1 →
      emitted r Tick.extinguisher = [Event.drive MotorId.motor2 v] →
      emitted s Tick.extinguisher = [Event.drive MotorId.motor2 (-v)]) ∧
    ((task_Extinguisher s).fire_detected = s.fire_detected ∧
      (task_Extinguisher s).state_extinguish = s.state_extinguish ∧
      (task_Extinguisher s).restart_program = s.restart_program) ∧
    (∀ n : Nat,
      run (task_Extinguisher s) (List.replicate n Tick.extinguisher) = task_Extinguisher s ∧
      (run (task_Extinguisher s) (List.replicate n Tick.extinguisher)).state_extinguish = 2 ∧
      emitted (run (task_Extinguisher s) (List.replicate n Tick.extinguisher))
        Tick.extinguisher = [] ∧
      step (run (task_Extinguisher s) (List.replicate n Tick.extinguisher)) Tick.extinguisher
        = run (task_Extinguisher s) (List.replicate n Tick.extinguisher)) := by
  have h1 : task_Extinguisher s =
      { s with start_unclamp := 1,
               trace := s.trace ++ [Event.drive MotorId.motor2 (-250)] } := by
    simp [task_Extinguisher, hes, hflag, drive]
  have h2 : step (task_Extinguisher s) Tick.extinguisher = task_Extinguisher s :=
    task_Extinguisher_quiet _ (Or.inr (Or.inl (by simp [h1, hes])))
  have h3 : emitted s Tick.extinguisher = [Event.drive MotorId.motor2 (-250)] := by
    simp [emitted, step, h1]
  refine ⟨h1, h3, ?_, by simp [h1], fun n => ?_⟩
  · intro r v hr hv
    rw [h3]
    simp only [emitted, step, task_Extinguisher, hr, drive] at hv
    split_ifs at hv <;> simp_all
  · rw [run_replicate_fixed _ _ h2 n]
    refine ⟨rfl, by simp [h1, hes], ?_, h2⟩
    unfold emitted; rw [h2]; simp

/-- C15, evaluated at `switch1Pressed` with two further passes. -/
theorem state2_one_shot_witness :
    (switch1Pressed.state_extinguish = 2 ∧ switch1Pressed.start_unclamp = 0) ∧
    emitted switch1Pressed Tick.extinguisher = [Event.drive MotorId.motor2 (-250)] ∧
    emitted (run (task_Extinguisher switch1Pressed) (List.replicate 2 Tick.extinguisher))
      Tick.extinguisher = [] :=
  ⟨by decide, (state2_one_shot switch1Pressed (by decide) (by decide)).2.1,
    ((state2_one_shot switch1Pressed (by decide) (by decide)).2.2.2.2 2).2.2.1⟩

/-! ## C17: the two checks of a rotation pass -/

/-- C17: for every state, the events of a rotation pass are the stop-and-arm pair
(`drive(0)`, put `state_extinguish = 1`), present exactly when `fire_detected = 1` and
`state_extinguish = 0`, followed by the resume-and-clear pair (`drive(250)`, put
`restart_program = 0`), present exactly when `restart_program = 1`; the new values of
`state_extinguish` and `restart_program` follow the same two conditions and
`fire_detected` is unchanged.  With `fire_detected = 1`, `state_extinguish = 0` and
`restart_program = 1` one pass performs both, stop-and-arm first. -/
theorem rotation_checks_independent (s : State) :
    emitted s Tick.rotation =
      (if s.fire_detected = 1 ∧ s.state_extinguish = 0 then
        [Event.drive MotorId.motor1 0, Event.put Share.state_extinguish 1] else []) ++
      (if s.restart_program = 1 then
        [Event.drive MotorId.motor1 250, Event.put Share.restart_program 0] else []) ∧
    (task_Rotation_Base s).state_extinguish =
      (if s.fire_detected = 1 ∧ s.state_extinguish = 0 then 1 else s.state_extinguish) ∧
    (task_Rotation_Base s).restart_program =
      (if s.restart_program = 1 then 0 else s.restart_program) ∧
    (task_Rotation_Base s).fire_detected = s.fire_detected ∧
    (s.fire_detected = 1 → s.state_extinguish = 0 → s.restart_program = 1 →
      emitted s Tick.rotation =
        [Event.drive MotorId.motor1 0, Event.put Share.state_extinguish 1,
         Event.drive MotorId.motor1 250, Event.put Share.restart_program 0]) := by
  refine ⟨?_, ?_, ?_, ?_, ?_⟩ <;>
    simp only [emitted, step, task_Rotation_Base, put, drive] <;>
    (try split_ifs) <;> simp_all

/-! ## C18: the idle state -/

/-- C18: in every state with `state_extinguish = 0` a pass of the extinguisher task
records no event and changes nothing; after every sequence of steps from the
initialised state, `state_extinguish = 0` implies `start_extinguish = 0` and
`start_unclamp = 0`; hence, when from such a state further steps without a pass of the
extinguisher task lead to `state_extinguish = 1`, the next pass of the extinguisher task
issues `drive(250)`. -/
theorem idle_state_flags_reset :
    (∀ s : State, s.state_extinguish = 0 →
      task_Extinguisher s = s ∧ emitted s Tick.extinguisher = []) ∧
    (∀ ts : List Tick, (run initState ts).state_extinguish = 0 →
      (run initState ts).start_extinguish = 0 ∧ (run initState ts).start_unclamp = 0) ∧
    (∀ ts us : List Tick, (run initState ts).state_extinguish = 0 →
      Tick.extinguisher ∉ us →
      (run (run initState ts) us).state_extinguish = 1 →
      emitted (run (run initState ts) us) Tick.extinguisher
        = [Event.drive MotorId.motor2 250]) := by
  refine ⟨fun s h => ?_, run_idle_flags, fun ts us h0 hus h1 => ?_⟩
  · have h1 : task_Extinguisher s = s :=
      task_Extinguisher_quiet s (Or.inr (Or.inr (by omega)))
    exact ⟨h1, by unfold emitted step; simp only [h1]; simp⟩
  · have hf := (run_flags us (run initState ts) hus).1
    rw [(run_idle_flags ts h0).1] at hf
    simp [emitted, step, task_Extinguisher, h1, hf, drive]

/-- C18, evaluated after a full cycle followed by a second detection and arming. -/
theorem idle_state_flags_reset_witness :
    (run initState (fullCycle hotTable)).state_extinguish = 0 ∧
    Tick.extinguisher ∉ [Tick.isr, Tick.thermal hotTable, Tick.rotation] ∧
    (run (run initState (fullCycle hotTable))
      [Tick.isr, Tick.thermal hotTable, Tick.rotation]).state_extinguish = 1 ∧
    emitted (run (run initState (fullCycle hotTable))
      [Tick.isr, Tick.thermal hotTable, Tick.rotation]) Tick.extinguisher
        = [Event.drive MotorId.motor2 250] :=
  ⟨by decide, by decide, by decide,
    idle_state_flags_reset.2.2 (fullCycle hotTable)
      [Tick.isr, Tick.thermal hotTable, Tick.rotation] (by decide) (by decide) (by decide)⟩

/-! ## C19: no re-arming without a new detection -/

/-- C19: in every state with `state_extinguish = 3`, after a pass of the extinguisher
task followed by any number of passes of the rotation task, `state_extinguish = 0` and
a further rotation pass does not put 1 to it; and in every state with
`fire_detected = 0` a rotation pass leaves `state_extinguish` unchanged and does not
put 1 to it. -/
theorem no_rearming_without_detection (s : State) (hes : s.state_extinguish = 3) :
    (∀ n : Nat,
      (run (task_Extinguisher s) (List.replicate n Tick.rotation)).state_extinguish = 0 ∧
      Event.put Share.state_extinguish 1 ∉
        emitted (run (task_Extinguisher s) (List.replicate n Tick.rotation)) Tick.rotation) ∧
    (∀ r : State, r.fire_detected = 0 →
      (task_Rotation_Base r).state_extinguish = r.state_extinguish ∧
      Event.put Share.state_extinguish 1 ∉ emitted r Tick.rotation) := by
  have hgen : ∀ r : State, r.fire_detected = 0 →
      (task_Rotation_Base r).state_extinguish = r.state_extinguish ∧
      (task_Rotation_Base r).fire_detected = 0 ∧
      Event.put Share.state_extinguish 1 ∉ emitted r Tick.rotation := by
    intro r hr
    simp only [emitted, step, task_Rotation_Base, put, drive]
    split_ifs <;> simp_all
  have hrun : ∀ (n : Nat) (r : State), r.fire_detected = 0 →
      (run r (List.replicate n Tick.rotation)).state_extinguish = r.state_extinguish ∧
      (run r (List.replicate n Tick.rotation)).fire_detected = 0 := by
    intro n
    induction n with
    | zero => intro r hr; exact ⟨rfl, hr⟩
    | succ n ih =>
      intro r hr
      rw [List.replicate_succ, run_cons]
      have h1 := hgen r hr
      have h2 := ih (step r Tick.rotation) h1.2.1
      exact ⟨h2.1.trans h1.1, h2.2⟩
  have h0 : (task_Extinguisher s).fire_detected = 0 ∧
      (task_Extinguisher s).state_extinguish = 0 := by
    simp [task_Extinguisher, hes, put, drive]
  refine ⟨fun n => ?_, fun r hr => ⟨(hgen r hr).1, (hgen r hr).2.2⟩⟩
  have h1 := hrun n (task_Extinguisher s) h0.1
  exact ⟨h1.1.trans h0.2, (hgen _ h1.2).2.2⟩

/-- C19, evaluated at `inState3` with three rotation passes. -/
theorem no_rearming_without_detection_witness :
    inState3.state_extinguish = 3 ∧
    (run (task_Extinguisher inState3) (List.replicate 3 Tick.rotation)).state_extinguish
      = 0 :=
  ⟨by decide, ((no_rearming_without_detection inState3 (by decide)).1 3).1⟩

/-! ## C20: motor ownership -/

/-- C20: for every state, a pass of the extinguisher task issues no command to the
turntable motor; a pass of the rotation task and its start-up action issue no command
to the extinguish motor; and every other step (thermal task, switch 1, switch 2, the
interrupt routine) issues no motor command at all. -/
theorem exclusive_motor_ownership (s : State) :
    driveLog MotorId.motor1 (task_Extinguisher s).trace = driveLog MotorId.motor1 s.trace ∧
    (∀ v : Int, Event.drive MotorId.motor1 v ∉ emitted s Tick.extinguisher) ∧
    driveLog MotorId.motor2 (task_Rotation_Base s).trace = driveLog MotorId.motor2 s.trace ∧
    (∀ v : Int, Event.drive MotorId.motor2 v ∉ emitted s Tick.rotation) ∧
    driveLog MotorId.motor2 (task_Rotation_Base_init s).trace
      = driveLog MotorId.motor2 s.trace ∧
    (∀ (t : Tick), t ≠ Tick.extinguisher → t ≠ Tick.rotation →
      ∀ (m : MotorId) (v : Int), Event.drive m v ∉ emitted s t) ∧
    (∀ (t : Tick), t ≠ Tick.extinguisher → t ≠ Tick.rotation →
      ∀ m : MotorId, driveLog m (step s t).trace = driveLog m s.trace) := by
  refine ⟨?_, ?_, ?_, ?_, ?_, ?_, ?_⟩
  · simp only [task_Extinguisher, put, drive]
    split_ifs <;> simp [driveLog, driveSpeed]
  · intro v
    simp only [emitted, step, task_Extinguisher, put, drive]
    split_ifs <;> simp
  · simp only [task_Rotation_Base, put, drive]
    split_ifs <;> simp [driveLog, driveSpeed]
  · intro v
    simp only [emitted, step, task_Rotation_Base, put, drive]
    split_ifs <;> simp
  · simp [task_Rotation_Base_init, put, drive, driveLog, driveSpeed]
  · intro t h1 h2 m v
    cases t <;>
      simp only [emitted, step, task_Thermal_Sensor, MicroSwitch1, MicroSwitch2, AMG88xx_ISR,
        put, drive, clearInterrupt] <;>
      (try split_ifs) <;> simp_all
  · intro t h1 h2 m
    cases t <;>
      simp only [step, task_Thermal_Sensor, MicroSwitch1, MicroSwitch2, AMG88xx_ISR,
        put, drive, clearInterrupt] <;>
      (try split_ifs) <;> simp_all [driveLog, driveSpeed]


/-! ## Invariants of the reachable states -/

/-- Every step preserves: while `state_extinguish` is 1, 2 or 3, `fire_detected = 1`. -/
theorem step_active_fire (s : State) (t : Tick)
    (h : s.state_extinguish = 1 ∨ s.state_extinguish = 2 ∨ s.state_extinguish = 3 →
      s.fire_detected = 1) :
    (step s t).state_extinguish = 1 ∨ (step s t).state_extinguish = 2 ∨
      (step s t).state_extinguish = 3 → (step s t).fire_detected = 1 := by
  cases t <;>
    simp only [step, task_Thermal_Sensor, task_Rotation_Base, task_Extinguisher, MicroSwitch1,
      MicroSwitch2, AMG88xx_ISR, put, drive, clearInterrupt] <;>
    (try split_ifs) <;> simp_all

/-- Every step preserves: while `restart_program = 1`, `state_extinguish = 0`. -/
theorem step_restart_idle (s : State) (t : Tick)
    (h : s.restart_program = 1 → s.state_extinguish = 0) :
    (step s t).restart_program = 1 → (step s t).state_extinguish = 0 := by
  cases t <;>
    simp only [step, task_Thermal_Sensor, task_Rotation_Base, task_Extinguisher, MicroSwitch1,
      MicroSwitch2, AMG88xx_ISR, put, drive, clearInterrupt] <;>
    (try split_ifs) <;> simp_all

/-- The commands the extinguish motor can have outstanding, by FSM state. -/
theorem step_motor2 (s : State) (t : Tick)
    (h : (lastDrive MotorId.motor2 s.trace = none ∨
            lastDrive MotorId.motor2 s.trace = some 0 ∨
            lastDrive MotorId.motor2 s.trace = some 250 ∨
            lastDrive MotorId.motor2 s.trace = some (-250)) ∧
         (s.state_extinguish = 0 →
            lastDrive MotorId.motor2 s.trace = none ∨
            lastDrive MotorId.motor2 s.trace = some 0)) :
    (lastDrive MotorId.motor2 (step s t).trace = none ∨
        lastDrive MotorId.motor2 (step s t).trace = some 0 ∨
        lastDrive MotorId.motor2 (step s t).trace = some 250 ∨
        lastDrive MotorId.motor2 (step s t).trace = some (-250)) ∧
    ((step s t).state_extinguish = 0 →
        lastDrive MotorId.motor2 (step s t).trace = none ∨
        lastDrive MotorId.motor2 (step s t).trace = some 0) := by
  cases t <;>
    simp only [step, task_Thermal_Sensor, task_Rotation_Base, task_Extinguisher, MicroSwitch1,
      MicroSwitch2, AMG88xx_ISR, put, drive, clearInterrupt] <;>
    (try split_ifs) <;>
    simp_all [lastDrive, driveLog, driveSpeed]

/-! ## C21: an active FSM implies the fire flag -/

/-- C21: after every sequence of steps from the initialised state, `state_extinguish`
in {1, 2, 3} implies `fire_detected = 1`; consequently in such a state a pass of the
thermal task changes nothing, whatever the latch and the interrupt table hold. -/
theorem active_implies_fire_detected (ts : List Tick) :
    ((run initState ts).state_extinguish = 1 ∨ (run initState ts).state_extinguish = 2 ∨
        (run initState ts).state_extinguish = 3 →
      (run initState ts).fire_detected = 1) ∧
    ((run initState ts).state_extinguish = 1 ∨ (run initState ts).state_extinguish = 2 ∨
        (run initState ts).state_extinguish = 3 →
      ∀ table : List Nat, task_Thermal_Sensor table (run initState ts) = run initState ts) := by
  have h := run_invariant
    (fun s => s.state_extinguish = 1 ∨ s.state_extinguish = 2 ∨ s.state_extinguish = 3 →
      s.fire_detected = 1) step_active_fire ts initState (by decide)
  refine ⟨h, fun hes table => ?_⟩
  simp [task_Thermal_Sensor, h hes]

/-- C21, evaluated after detection and arming. -/
theorem active_implies_fire_detected_witness :
    (run initState detectAndArm).state_extinguish = 1 ∧
    (run initState detectAndArm).fire_detected = 1 :=
  ⟨by decide, (active_implies_fire_detected detectAndArm).1 (Or.inl (by decide))⟩

/-! ## C22: a pending restart implies the idle state -/

/-- C22: after every sequence of steps from the initialised state,
`restart_program = 1` implies `state_extinguish = 0`; and in every state a rotation pass
that puts `state_extinguish = 1` ends with `restart_program ≠ 1`. -/
theorem restart_pending_implies_idle (ts : List Tick) :
    ((run initState ts).restart_program = 1 → (run initState ts).state_extinguish = 0) ∧
    (∀ s : State, Event.put Share.state_extinguish 1 ∈ emitted s Tick.rotation →
      (step s Tick.rotation).restart_program ≠ 1) := by
  refine ⟨run_invariant (fun s => s.restart_program = 1 → s.state_extinguish = 0)
    step_restart_idle ts initState (by decide), fun s => ?_⟩
  simp only [emitted, step, task_Rotation_Base, put, drive]
  split_ifs <;> simp_all

/-- C22, evaluated right after the state-3 reset. -/
theorem restart_pending_implies_idle_witness :
    (run initState untilReset).restart_program = 1 ∧
    (run initState untilReset).state_extinguish = 0 :=
  ⟨by decide, (restart_pending_implies_idle untilReset).1 (by decide)⟩

/-! ## C23: the extinguish motor in the idle state -/

/-- C23: after every sequence of steps from the initialised state,
`state_extinguish = 0` implies that the extinguish motor was never commanded or its most
recent command is `drive(0)`; and whenever its most recent command has a nonzero speed,
that speed is 250 or -250 and `state_extinguish` is 1, 2 or 3. -/
theorem idle_implies_extinguish_motor_stopped (ts : List Tick) :
    ((run initState ts).state_extinguish = 0 →
      lastDrive MotorId.motor2 (run initState ts).trace = none ∨
      lastDrive MotorId.motor2 (run initState ts).trace = some 0) ∧
    (∀ v : Int, lastDrive MotorId.motor2 (run initState ts).trace = some v → v ≠ 0 →
      (v = 250 ∨ v = -250) ∧
      ((run initState ts).state_extinguish = 1 ∨ (run initState ts).state_extinguish = 2 ∨
        (run initState ts).state_extinguish = 3)) := by
  have h := run_invariant
    (fun s => (lastDrive MotorId.motor2 s.trace = none ∨
            lastDrive MotorId.motor2 s.trace = some 0 ∨
            lastDrive MotorId.motor2 s.trace = some 250 ∨
            lastDrive MotorId.motor2 s.trace = some (-250)) ∧
         (s.state_extinguish = 0 →
            lastDrive MotorId.motor2 s.trace = none ∨
            lastDrive MotorId.motor2 s.trace = some 0))
    step_motor2 ts initState (by decide)
  have hle := run_state_extinguish_le ts
  refine ⟨h.2, fun v hv hv0 => ?_⟩
  have hval : v = 250 ∨ v = -250 := by
    rcases h.1 with h1 | h1 | h1 | h1 <;> rw [hv] at h1 <;> simp_all
  refine ⟨hval, ?_⟩
  by_contra hcon
  have h0 : (run initState ts).state_extinguish = 0 := by omega
  rcases h.2 h0 with h1 | h1 <;> rw [hv] at h1 <;> simp_all

/-- C23, evaluated right after the state-3 reset. -/
theorem idle_implies_extinguish_motor_stopped_witness :
    (run initState untilReset).state_extinguish = 0 ∧
    (lastDrive MotorId.motor2 (run initState untilReset).trace = none ∨
      lastDrive MotorId.motor2 (run initState untilReset).trace = some 0) :=
  ⟨by decide, (idle_implies_extinguish_motor_stopped untilReset).1 (by decide)⟩

/-! ## C24: out-of-domain values -/

/-- C24: in every state with `state_extinguish` outside {1, 2, 3}, a pass of the
extinguisher task records no event and changes nothing, a pass of `MicroSwitch1`
changes nothing for every pin level, and a rotation pass puts `state_extinguish = 1`
only if the value is 0 (for a nonzero value it keeps it and issues no stop command).
For every state with `fire_detected ≠ 1` a rotation pass acts as with
`fire_detected = 0` (the share keeps its value, nothing is armed); for every state with
`restart_program ≠ 1` it acts as with `restart_program = 0` (the share keeps its value,
no resume command, no put). -/
theorem out_of_domain_values_inert (s : State) (h1 : s.state_extinguish ≠ 1)
    (h2 : s.state_extinguish ≠ 2) (h3 : s.state_extinguish ≠ 3) :
    task_Extinguisher s = s ∧
    emitted s Tick.extinguisher = [] ∧
    (∀ level : Nat, MicroSwitch1 level s = s) ∧
    (Event.put Share.state_extinguish 1 ∈ emitted s Tick.rotation →
      s.state_extinguish = 0) ∧
    (s.state_extinguish ≠ 0 → (task_Rotation_Base s).state_extinguish = s.state_extinguish ∧
      ∀ v : Int, Event.drive MotorId.motor1 v ∈ emitted s Tick.rotation → v = 250) ∧
    (∀ r : State, r.fire_detected ≠ 1 →
      task_Rotation_Base r =
        { task_Rotation_Base { r with fire_detected := 0 } with
          fire_detected := r.fire_detected } ∧
      (task_Rotation_Base r).state_extinguish = r.state_extinguish ∧
      Event.put Share.state_extinguish 1 ∉ emitted r Tick.rotation) ∧
    (∀ r : State, r.restart_program ≠ 1 →
      task_Rotation_Base r =
        { task_Rotation_Base { r with restart_program := 0 } with
          restart_program := r.restart_program } ∧
      (task_Rotation_Base r).restart_program = r.restart_program ∧
      Event.put Share.restart_program 0 ∉ emitted r Tick.rotation ∧
      Event.drive MotorId.motor1 250 ∉ emitted r Tick.rotation) := by
  have hq : task_Extinguisher s = s := task_Extinguisher_quiet s (Or.inr (Or.inr ⟨h1, h2, h3⟩))
  refine ⟨hq, ?_, fun level => MicroSwitch1_inactive level s h1, ?_, ?_, ?_, ?_⟩
  · unfold emitted step; simp only [hq]; simp
  · simp only [emitted, step, task_Rotation_Base, put, drive]
    split_ifs <;> simp_all
  · intro h0
    simp only [emitted, step, task_Rotation_Base, put, drive]
    split_ifs <;> simp_all
  · intro r hr
    obtain ⟨fd, es, rp, se, su, ir, px, tr⟩ := r
    simp only [emitted, step, task_Rotation_Base, put, drive]
    split_ifs <;> simp_all
  · intro r hr
    obtain ⟨fd, es, rp, se, su, ir, px, tr⟩ := r
    simp only [emitted, step, task_Rotation_Base, put, drive]
    split_ifs <;> simp_all

/-- C24, evaluated at `outOfDomain` (`state_extinguish = 200`). -/
theorem out_of_domain_values_inert_witness :
    (outOfDomain.state_extinguish ≠ 1 ∧ outOfDomain.state_extinguish ≠ 2 ∧
      outOfDomain.state_extinguish ≠ 3) ∧
    task_Extinguisher outOfDomain = outOfDomain ∧
    (∀ level : Nat, MicroSwitch1 level outOfDomain = outOfDomain) ∧
    (task_Rotation_Base outOfDomain).state_extinguish = 200 :=
  ⟨by decide, (out_of_domain_values_inert outOfDomain (by decide) (by decide) (by decide)).1,
    (out_of_domain_values_inert outOfDomain (by decide) (by decide) (by decide)).2.2.1,
    ((out_of_domain_values_inert outOfDomain (by decide) (by decide) (by decide)).2.2.2.2.1 (by decide)).1⟩

/-! ## Invariants used for scenarios A and B -/

theorem run_active_fire (ts : List Tick) :
    (run initState ts).state_extinguish = 1 ∨ (run initState ts).state_extinguish = 2 ∨
      (run initState ts).state_extinguish = 3 → (run initState ts).fire_detected = 1 :=
  run_invariant
    (fun s => s.state_extinguish = 1 ∨ s.state_extinguish = 2 ∨ s.state_extinguish = 3 →
      s.fire_detected = 1) step_active_fire ts initState (by decide)

/-- Every step preserves: while `state_extinguish` is 0 or 1, `start_unclamp = 0`. -/
theorem step_unclamp_flag (s : State) (t : Tick)
    (h : s.state_extinguish = 0 ∨ s.state_extinguish = 1 → s.start_unclamp = 0) :
    (step s t).state_extinguish = 0 ∨ (step s t).state_extinguish = 1 →
      (step s t).start_unclamp = 0 := by
  cases t <;>
    simp only [step, task_Thermal_Sensor, task_Rotation_Base, task_Extinguisher, MicroSwitch1,
      MicroSwitch2, AMG88xx_ISR, put, drive, clearInterrupt] <;>
    (try split_ifs) <;> simp_all

theorem run_unclamp_flag (ts : List Tick) :
    (run initState ts).state_extinguish = 0 ∨ (run initState ts).state_extinguish = 1 →
      (run initState ts).start_unclamp = 0 :=
  run_invariant
    (fun s => s.state_extinguish = 0 ∨ s.state_extinguish = 1 → s.start_unclamp = 0)
    step_unclamp_flag ts initState (by decide)

/-- In state 1 with `start_unclamp = 0`: switch 1 pressed, then the reversal. -/
theorem MicroSwitch1_then_reverse (s : State) (hes : s.state_extinguish = 1)
    (hflag : s.start_unclamp = 0) :
    MicroSwitch1 0 s = put Share.state_extinguish 2 s ∧
    (MicroSwitch1 0 s).state_extinguish = 2 ∧
    emitted (MicroSwitch1 0 s) Tick.extinguisher = [Event.drive MotorId.motor2 (-250)] ∧
    lastDrive MotorId.motor2 (task_Extinguisher (MicroSwitch1 0 s)).trace = some (-250) := by
  have h1 : MicroSwitch1 0 s = put Share.state_extinguish 2 s := by
    simp [MicroSwitch1, hes]
  rw [h1]
  simp [emitted, step, task_Extinguisher, put, drive, hflag, lastDrive_append, lastDrive,
    driveLog, driveSpeed]

/-! ## C5: scenario A, detection and arming -/

/-- C5 (violated by the code): the claim says that from a state with the latch set and
`fire_detected = 0` a thermal pass gives `fire_detected = 1` and the rotation pass that
follows ends with `drive(0)` as its last turntable command and `state_extinguish = 1`.
`resetWithLatch` is a reachable state with the latch set, `fire_detected = 0`,
`state_extinguish = 0` and `restart_program = 1`; there the rotation pass issues
`drive(0)`, arms the FSM and then issues `drive(250)`, so the turntable is left running
with `state_extinguish = 1`.  Hence the claim fails even on reachable states.  On the
reachable states the thermal pass always gives `fire_detected = 1` and the rotation pass
always gives `state_extinguish = 1`; the last turntable command of the pass is
`drive(0)` exactly when `restart_program ≠ 1`. -/
theorem scenario_A_turntable_resumed_when_restart_pending :
    (Reachable resetWithLatch ∧ resetWithLatch.intReceived = true ∧
      resetWithLatch.fire_detected = 0 ∧ resetWithLatch.state_extinguish = 0 ∧
      resetWithLatch.restart_program = 1) ∧
    ((task_Thermal_Sensor hotTable resetWithLatch).fire_detected = 1 ∧
      emitted (task_Thermal_Sensor hotTable resetWithLatch) Tick.rotation =
        [Event.drive MotorId.motor1 0, Event.put Share.state_extinguish 1,
         Event.drive MotorId.motor1 250, Event.put Share.restart_program 0] ∧
      lastDrive MotorId.motor1
        (task_Rotation_Base (task_Thermal_Sensor hotTable resetWithLatch)).trace
          = some 250 ∧
      (task_Rotation_Base (task_Thermal_Sensor hotTable resetWithLatch)).state_extinguish
        = 1) ∧
    ¬ (∀ (s : State) (table : List Nat), Reachable s → s.intReceived = true →
        s.fire_detected = 0 →
        (task_Thermal_Sensor table s).fire_detected = 1 ∧
        lastDrive MotorId.motor1 (emitted (task_Thermal_Sensor table s) Tick.rotation)
          = some 0 ∧
        (task_Rotation_Base (task_Thermal_Sensor table s)).state_extinguish = 1) ∧
    (∀ (ts : List Tick) (table : List Nat), (run initState ts).intReceived = true →
        (run initState ts).fire_detected = 0 →
        (task_Thermal_Sensor table (run initState ts)).fire_detected = 1 ∧
        (task_Rotation_Base (task_Thermal_Sensor table (run initState ts))).state_extinguish
          = 1 ∧
        (lastDrive MotorId.motor1
            (emitted (task_Thermal_Sensor table (run initState ts)) Tick.rotation) = some 0 ↔
          (run initState ts).restart_program ≠ 1)) := by
  have hreach : Reachable resetWithLatch := ⟨_, rfl⟩
  refine ⟨⟨hreach, by decide⟩, by decide, fun h => ?_, fun ts table hlatch hfd => ?_⟩
  · have h1 := (h resetWithLatch hotTable hreach (by decide) (by decide)).2.1
    revert h1
    decide
  · have hes : (run initState ts).state_extinguish = 0 := by
      have hle := run_state_extinguish_le ts
      have hact := run_active_fire ts
      by_contra hne
      have h1 : (run initState ts).fire_detected = 1 := hact (by omega)
      omega
    have h1 : task_Thermal_Sensor table (run initState ts) =
        { run initState ts with
          fire_detected := 1, intReceived := false, pixelInts := table,
          trace := (run initState ts).trace ++
            [Event.put Share.fire_detected 1, Event.clearInterrupt] } := by
      simp [task_Thermal_Sensor, hlatch, hfd, put, clearInterrupt]
    rw [h1]
    by_cases hrp : (run initState ts).restart_program = 1 <;>
      simp [emitted, step, task_Rotation_Base, put, drive, hes, hrp, lastDrive, driveLog,
        driveSpeed]

/-! ## C6: scenario B, switch 1 and the reversal -/

/-- C6: in every state reached from the initialised state with `state_extinguish = 1`
(there the local flag `start_unclamp` is 0), one pass of `MicroSwitch1` that reads
digital zero puts `state_extinguish = 2`, and the pass of the extinguisher task that
follows issues exactly `drive(-250)` to the extinguish motor, which is then its most
recent command. -/
theorem scenario_B_reverse (ts : List Tick) (hes : (run initState ts).state_extinguish = 1) :
    (run initState ts).start_unclamp = 0 ∧
    MicroSwitch1 0 (run initState ts) = put Share.state_extinguish 2 (run initState ts) ∧
    (MicroSwitch1 0 (run initState ts)).state_extinguish = 2 ∧
    emitted (MicroSwitch1 0 (run initState ts)) Tick.extinguisher
      = [Event.drive MotorId.motor2 (-250)] ∧
    lastDrive MotorId.motor2 (task_Extinguisher (MicroSwitch1 0 (run initState ts))).trace
      = some (-250) :=
  ⟨run_unclamp_flag ts (Or.inr hes),
    MicroSwitch1_then_reverse _ hes (run_unclamp_flag ts (Or.inr hes))⟩

/-- C6, evaluated after detection, arming and the first pass of the extinguisher task. -/
theorem scenario_B_reverse_witness :
    (run initState
      [Tick.isr, Tick.thermal hotTable, Tick.rotation, Tick.extinguisher]).state_extinguish
        = 1 ∧
    (MicroSwitch1 0 (run initState
      [Tick.isr, Tick.thermal hotTable, Tick.rotation, Tick.extinguisher])).state_extinguish
        = 2 ∧
    emitted (MicroSwitch1 0 (run initState
      [Tick.isr, Tick.thermal hotTable, Tick.rotation, Tick.extinguisher])) Tick.extinguisher
        = [Event.drive MotorId.motor2 (-250)] :=
  ⟨by decide,
    (scenario_B_reverse [Tick.isr, Tick.thermal hotTable, Tick.rotation, Tick.extinguisher]
      (by decide)).2.2.1,
    (scenario_B_reverse [Tick.isr, Tick.thermal hotTable, Tick.rotation, Tick.extinguisher]
      (by decide)).2.2.2.1⟩

end FireBot
